import Mathlib

/-!
Verification development for `mcpd_bridge.py`, the stdio ↔ Streamable HTTP
bridge of the mcpd repository.  The Python source is shallowly embedded:

* JSON documents (`json.loads` results / `json.dumps` inputs) become the
  inductive type `Json`; `json.loads` itself is standard-library code and is
  modelled as an oracle parameter `loads : String → Option Json`
  (`none` = `json.JSONDecodeError`).
* one iteration of the `for line in sys.stdin` loop (source lines 61–147)
  becomes the pure function `stepLine`; the network exchange performed by
  `urllib.request.urlopen` is an oracle `net : Request → NetResult` whose
  constructors mirror the ways the call can return or raise
  (`success` = `urlopen` returned, status in the 2xx range;
  `httpError` = `urllib.error.HTTPError` with its status, headers and body —
  the source never reads the headers of an `HTTPError`, and accordingly the
  `sessionHeader` field of `httpError` is ignored by `handleResponse`;
  `urlError` = `urllib.error.URLError`; `otherExc` = any other exception
  raised inside the `try:` block, e.g. a `UnicodeDecodeError` from
  `resp.read().decode("utf-8")`).
* writes to `sys.stdout` become a list of `OutEvent`s (`write`/`flush`);
* the mutable `session_id` variable becomes explicit state threaded through
  `stepLine`/`runLoop`; `crashed = true` marks an exception that escapes
  every handler (an exception raised inside an `except` clause of the same
  `try` statement is not caught by its sibling clauses), terminating the
  process;
* the mDNS discovery of `discover_mcu` (source lines 152–190) polls the
  shared `result` dict every 100 ms; the values the polling loop observes
  are modelled as a trace `observed : Nat → Option (String × Nat)`
  (index `i` = the contents of `result` at the `i`-th read; index 50 is the
  final read of the `return` statement after all 50 checks failed).
  `sys.exit(1)` on failed discovery is modelled by `resolveEndpoint`
  returning `none`, in which case `mainRun` never enters the loop.
-/

/-- JSON documents, as produced by `json.loads` and consumed by
`json.dumps`.  `obj` models a Python dict (keys unique, insertion order
preserved); numbers are restricted to integers, the only numbers the
bridge itself ever constructs. -/
inductive Json where
  | null
  | bool (b : Bool)
  | num (n : Int)
  | str (s : String)
  | arr (elems : List Json)
  | obj (fields : List (String × Json))

/-- Hexadecimal digit character, lower case, as in Python's `\uXXXX`
escapes. -/
def hexDigitChar (n : Nat) : Char :=
  if n < 10 then Char.ofNat (48 + n) else Char.ofNat (87 + n)

/-- Four-digit lower-case hexadecimal rendering of `n < 0x10000`. -/
def hex4 (n : Nat) : String :=
  String.mk [hexDigitChar (n / 4096 % 16), hexDigitChar (n / 256 % 16),
             hexDigitChar (n / 16 % 16), hexDigitChar (n % 16)]

/-- Escaping of one character inside a JSON string literal, following
`json.dumps` with its default `ensure_ascii=True`: everything outside the
printable ASCII range `0x20`–`0x7e` is escaped, astral code points as a
surrogate pair. -/
def escapeChar (c : Char) : String :=
  if c = '"' then "\\\""
  else if c = '\\' then "\\\\"
  else if c = '\n' then "\\n"
  else if c = '\r' then "\\r"
  else if c = '\t' then "\\t"
  else if c = '\x08' then "\\b"
  else if c = '\x0c' then "\\f"
  else if c.toNat < 32 then "\\u" ++ hex4 c.toNat
  else if c.toNat < 127 then String.singleton c
  else if c.toNat < 65536 then "\\u" ++ hex4 c.toNat
  else "\\u" ++ hex4 (55296 + (c.toNat - 65536) / 1024) ++
       "\\u" ++ hex4 (56320 + (c.toNat - 65536) % 1024)

/-- JSON string literal with quotes, as rendered by `json.dumps`. -/
def quoteString (s : String) : String :=
  "\"" ++ String.join (s.data.map escapeChar) ++ "\""

mutual

/-- Serialisation of a JSON document exactly as Python's `json.dumps` with
default arguments renders it (separators `", "` and `": "`,
`ensure_ascii=True`, dict insertion order preserved). -/
def dumps : Json → String
  | Json.null => "null"
  | Json.bool b => if b then "true" else "false"
  | Json.num n => toString n
  | Json.str s => quoteString s
  | Json.arr elems => "[" ++ String.intercalate ", " (dumpsList elems) ++ "]"
  | Json.obj fields => "\x7b" ++ String.intercalate ", " (dumpsFields fields) ++ "\x7d"

/-- Serialisation of the elements of a JSON array. -/
def dumpsList : List Json → List String
  | [] => []
  | e :: es => dumps e :: dumpsList es

/-- Serialisation of the key/value pairs of a JSON object. -/
def dumpsFields : List (String × Json) → List String
  | [] => []
  | (k, v) :: fs => (quoteString k ++ ": " ++ dumps v) :: dumpsFields fs

end

/-- Python `str.isspace` on the ASCII whitespace characters stripped by
`str.strip()`. -/
def isPySpace (c : Char) : Bool :=
  c == ' ' || c == '\t' || c == '\n' || c == '\r' || c == '\x0b' || c == '\x0c'

/-- Python's `line.strip()` (source line 62): whitespace removed from both
ends. -/
def pyStrip (s : String) : String :=
  String.mk (((s.data.dropWhile isPySpace).reverse.dropWhile isPySpace).reverse)

/-- Python truthiness of the `session_id` variable (`if session_id:` /
`if resp_session:`): `None` and the empty string are falsy. -/
def pyTruthy : Option String → Bool
  | none => false
  | some s => s != ""

/-- Python's `msg.get("id")` as used in the error handlers (source lines
124 and 137).  For a dict it returns the value, or `None` (serialised as
JSON `null`) when the key is absent; for any other value `.get` does not
exist and an `AttributeError` is raised, modelled by `none`. -/
def msgGetId : Json → Option Json
  | Json.obj fields => some ((fields.lookup "id").getD Json.null)
  | _ => none

/-- One outbound HTTP request as built by `urllib.request.Request`
(source lines 83–88). -/
structure Request where
  url : String
  body : String
  headers : List (String × String)
  method : String

/-- The classified result of one `urllib.request.urlopen` call, as seen by
the `try`/`except` structure of the main loop.  Success responses and
`HTTPError`s both carry headers, hence both have a `sessionHeader` field for
the `Mcp-Session-Id` header of the response; the source reads it only from
success responses. -/
inductive NetResult where
  | success (status : Nat) (sessionHeader : Option String) (body : String)
  | httpError (code : Nat) (sessionHeader : Option String) (body : String)
  | urlError (reason : String)
  | otherExc (description : String)

/-- One event on `sys.stdout`. -/
inductive OutEvent where
  | write (s : String)
  | flush

/-- The effect of one iteration of the main loop: the outbound request sent
(if any), the value of `session_id` afterwards, the stdout events, and
whether an uncaught exception escaped the iteration (terminating the
process). -/
structure IterResult where
  request : Option Request
  session : Option String
  events : List OutEvent
  crashed : Bool

/-- The two headers always present (source lines 76–79). -/
def baseHeaders : List (String × String) :=
  [("Content-Type", "application/json"),
   ("Accept", "application/json, text/event-stream")]

/-- The header dict of one outbound request (source lines 76–81): the base
headers, plus `Mcp-Session-Id` when `session_id` is truthy. -/
def buildHeaders : Option String → List (String × String)
  | none => baseHeaders
  | some s => if s = "" then baseHeaders else baseHeaders ++ [("Mcp-Session-Id", s)]

/-- The outbound request of source lines 83–88: a POST to `base_url` whose
body is the stripped input line. -/
def buildRequest (base_url : String) (session_id : Option String)
    (line : String) : Request :=
  ⟨base_url, line, buildHeaders session_id, "POST"⟩

/-- The JSON-RPC error envelope built by the two error handlers (source
lines 122–129 and 135–142). -/
def errorResponse (mid : Json) (message : String) : Json :=
  Json.obj [("jsonrpc", Json.str "2.0"), ("id", mid),
            ("error", Json.obj [("code", Json.num (-32000)),
                                ("message", Json.str message)])]

/-- Handling of one network outcome for an already-parsed message `msg`
(source lines 90–147): the body of the `try:` on success, and the three
`except` clauses.  On success the session header is captured (lines 93–96)
before the 202 check (line 100).  On `HTTPError`, 404 clears `session_id`
(lines 117–119) before the error envelope is built; building the envelope
evaluates `msg.get("id")`, which raises for a non-dict `msg` — an exception
inside an `except` clause is not caught by the sibling `except Exception`,
so the process crashes.  `otherExc` is the `except Exception` clause (lines
146–147): log only, no output. -/
def handleResponse (msg : Json) (req : Request) (session_id : Option String) :
    NetResult → IterResult
  | NetResult.success status resp_session body =>
    let session := if pyTruthy resp_session then resp_session else session_id
    if status = 202 then ⟨some req, session, [], false⟩
    else ⟨some req, session,
          [OutEvent.write (body ++ "\n"), OutEvent.flush], false⟩
  | NetResult.httpError code _resp_session body =>
    let session := if code = 404 then none else session_id
    match msgGetId msg with
    | some mid =>
      ⟨some req, session,
       [OutEvent.write (dumps (errorResponse mid
          ("HTTP " ++ toString code ++ ": " ++ body)) ++ "\n"),
        OutEvent.flush], false⟩
    | none => ⟨some req, session, [], true⟩
  | NetResult.urlError reason =>
    match msgGetId msg with
    | some mid =>
      ⟨some req, session_id,
       [OutEvent.write (dumps (errorResponse mid
          ("Connection error: " ++ reason)) ++ "\n"),
        OutEvent.flush], false⟩
    | none => ⟨some req, session_id, [], true⟩
  | NetResult.otherExc _ => ⟨some req, session_id, [], false⟩

/-- One iteration of the main loop (source lines 61–147): strip the line,
skip it when empty (lines 62–64), parse it with `json.loads` skipping on
failure (lines 66–71), otherwise build the request and hand the network
outcome to `handleResponse`. -/
def stepLine (loads : String → Option Json) (base_url : String)
    (session_id : Option String) (rawLine : String)
    (net : Request → NetResult) : IterResult :=
  if pyStrip rawLine = "" then ⟨none, session_id, [], false⟩
  else
    match loads (pyStrip rawLine) with
    | none => ⟨none, session_id, [], false⟩
    | some msg =>
      handleResponse msg (buildRequest base_url session_id (pyStrip rawLine))
        session_id (net (buildRequest base_url session_id (pyStrip rawLine)))

/-- The whole `for line in sys.stdin` loop over a finite input stream:
returns the stdout events and whether the process crashed mid-stream.  The
network oracle is indexed by the line number so that different lines can
receive different responses. -/
def runLoop (loads : String → Option Json) (base_url : String)
    (session_id : Option String) (lines : List String)
    (net : Nat → Request → NetResult) : List OutEvent × Bool :=
  match lines with
  | [] => ([], false)
  | rawLine :: rest =>
    let r := stepLine loads base_url session_id rawLine (net 0)
    if r.crashed then (r.events, true)
    else
      let tailRes := runLoop loads base_url r.session rest (fun n => net (n + 1))
      (r.events ++ tailRes.1, tailRes.2)

/-- Environment of one run of `discover_mcu`: whether the `zeroconf`
package is importable, and the trace of values of the shared `result` dict
at each of the polling loop's reads (the mDNS listener thread fills the
dict between reads; a read either sees nothing yet, or the
address/port pair most recently written by `add_service`). -/
structure DiscoveryEnv where
  zeroconfAvailable : Bool
  observed : Nat → Option (String × Nat)

/-- The polling loop of `discover_mcu` (source lines 180–186):
`for _ in range(50): if result["host"]: break; time.sleep(0.1)` followed by
`return result["host"], result["port"]`.  `pollResult observed i fuel`
performs `fuel` checks starting at read index `i`, stopping at the first
truthy `result["host"]`; when all checks fail, the `return` statement reads
the dict once more (index `i + fuel`). -/
def pollResult (observed : Nat → Option (String × Nat)) :
    Nat → Nat → Option (String × Nat)
  | i, 0 => observed i
  | i, fuel + 1 =>
    match observed i with
    | some r => if r.1 = "" then pollResult observed (i + 1) fuel else some r
    | none => pollResult observed (i + 1) fuel

/-- `discover_mcu` (source lines 152–190): `(None, None)` — here `none` —
when `zeroconf` cannot be imported, otherwise the result of the bounded
polling loop (50 checks at 100 ms granularity, 5 seconds in total). -/
def discover_mcu (env : DiscoveryEnv) : Option (String × Nat) :=
  if env.zeroconfAvailable then pollResult env.observed 0 50 else none

/-- Endpoint resolution in `main` (source lines 46–53): with `--discover`,
run `discover_mcu` and exit with code 1 (`none`) when `if not host:` —
no host, or an empty host string; without it, use the `--host`/`--port`
arguments. -/
def resolveEndpoint (env : DiscoveryEnv) (discover : Bool)
    (argHost : String) (argPort : Nat) : Option (String × Nat) :=
  if discover then
    match discover_mcu env with
    | some (h, p) => if h = "" then none else some (h, p)
    | none => none
  else some (argHost, argPort)

/-- `main` (source lines 37–149): resolve the endpoint, then — only if
resolution succeeded — build `base_url` as in line 55 and run the main loop
with `session_id = None`.  `none` models `sys.exit(1)` before the loop is
ever entered. -/
def mainRun (env : DiscoveryEnv) (discover : Bool) (argHost : String)
    (argPort : Nat) (path : String) (loads : String → Option Json)
    (lines : List String) (net : Nat → Request → NetResult) :
    Option (List OutEvent × Bool) :=
  match resolveEndpoint env discover argHost argPort with
  | none => none
  | some (h, p) =>
    some (runLoop loads ("http://" ++ h ++ ":" ++ toString p ++ path)
      none lines net)

/-- Field access in a JSON object, for stating properties of the error
envelope. -/
def getField : Json → String → Option Json
  | Json.obj fields, k => fields.lookup k
  | _, _ => none

def url0 : String := "http://my-device.local:80/mcp"
def line0 : String := "\x7b\"jsonrpc\": \"2.0\", \"id\": 1, \"method\": \"ping\"\x7d"
def msg0 : Json := Json.obj [("jsonrpc", Json.str "2.0"), ("id", Json.num 1), ("method", Json.str "ping")]
def lineArr : String := "[1, 2, 3]"
def msgArr : Json := Json.arr [Json.num 1, Json.num 2, Json.num 3]
def loads0 : String → Option Json :=
  fun l => if l = line0 then some msg0 else if l = lineArr then some msgArr else none
def obsW : Nat → Option (String × Nat) :=
  fun i => if 3 <= i then some ("192.168.1.7", 8080) else none
def envW : DiscoveryEnv := ⟨true, obsW⟩

lemma msgGetId_of_not_obj (msg : Json) (h : ∀ kvs, msg ≠ Json.obj kvs) :
    msgGetId msg = none := by
  cases msg <;> first | rfl | exact absurd rfl (h _)

lemma pollResult_none (obs : Nat → Option (String × Nat)) :
    ∀ (fuel i : Nat), (∀ k, i ≤ k → k ≤ i + fuel → obs k = none) →
      pollResult obs i fuel = none := by
  intro fuel
  induction fuel with
  | zero => intro i h; simpa [pollResult] using h i le_rfl (by omega)
  | succ n ih =>
    intro i h
    have h0 : obs i = none := h i le_rfl (by omega)
    simp only [pollResult, h0]
    exact ih (i + 1) (fun k hk1 hk2 => h k (by omega) (by omega))

lemma pollResult_first (obs : Nat → Option (String × Nat)) :
    ∀ (fuel i j : Nat) (r : String × Nat), i ≤ j → j ≤ i + fuel →
      obs j = some r → r.1 ≠ "" → (∀ k, i ≤ k → k < j → obs k = none) →
      pollResult obs i fuel = some r := by
  intro fuel
  induction fuel with
  | zero =>
    intro i j r hij hji hobs hr hnone
    have hj : j = i := by omega
    subst hj
    simpa [pollResult] using hobs
  | succ n ih =>
    intro i j r hij hji hobs hr hnone
    by_cases hieq : i = j
    · subst hieq
      simp only [pollResult, hobs]
      rw [if_neg hr]
    · have h0 : obs i = none := hnone i le_rfl (by omega)
      simp only [pollResult, h0]
      exact ih (i + 1) j r (by omega) (by omega) hobs hr
        (fun k hk1 hk2 => hnone k (by omega) hk2)

lemma pollResult_congr (obs obs' : Nat → Option (String × Nat)) :
    ∀ (fuel i : Nat), (∀ k, i ≤ k → k ≤ i + fuel → obs k = obs' k) →
      pollResult obs i fuel = pollResult obs' i fuel := by
  intro fuel
  induction fuel with
  | zero =>
    intro i h
    simp only [pollResult]
    exact h i le_rfl (by omega)
  | succ n ih =>
    intro i h
    simp only [pollResult]
    rw [← h i le_rfl (by omega)]
    cases hobs : obs i with
    | none => exact ih (i + 1) (fun k hk1 hk2 => h k (by omega) (by omega))
    | some r =>
      show (if r.1 = "" then pollResult obs (i + 1) n else some r) =
        (if r.1 = "" then pollResult obs' (i + 1) n else some r)
      by_cases hr : r.1 = ""
      · rw [if_pos hr, if_pos hr]
        exact ih (i + 1) (fun k hk1 hk2 => h k (by omega) (by omega))
      · rw [if_neg hr, if_neg hr]

/-- C1: for every input line that parses as JSON, when the remote responds on the
success path with a status other than 202 and a body, the bridge writes exactly one
output line whose content is the response body verbatim (passed through unmodified,
not re-parsed or re-encoded) followed by a newline, and immediately flushes. -/
theorem C1_success_passthrough
    (loads : String → Option Json) (base_url : String) (session : Option String)
    (rawLine : String) (msg : Json) (net : Request → NetResult)
    (status : Nat) (hdr : Option String) (body : String)
    (h1 : pyStrip rawLine ≠ "")
    (h2 : loads (pyStrip rawLine) = some msg)
    (h3 : net (buildRequest base_url session (pyStrip rawLine)) =
      NetResult.success status hdr body)
    (h4 : status ≠ 202) :
    (stepLine loads base_url session rawLine net).events =
      [OutEvent.write (body ++ "\n"), OutEvent.flush] := by
  simp only [stepLine, if_neg h1, h2]
  rw [h3]
  simp [handleResponse, h4]

/-- C2: for every forwarding attempt on a parsed object envelope and every prior
session-tracker state, a response with status 404 clears the session token to `none`
while the mapped error is produced, whereas any other non-success status and any
connection-level failure produce the mapped error with the session token left
exactly as it was. -/
theorem C2_session_transitions
    (loads : String → Option Json) (base_url : String) (session : Option String)
    (rawLine : String) (kvs : List (String × Json))
    (h1 : pyStrip rawLine ≠ "")
    (h2 : loads (pyStrip rawLine) = some (Json.obj kvs)) :
    (∀ net hdr body,
      net (buildRequest base_url session (pyStrip rawLine)) =
        NetResult.httpError 404 hdr body →
      (stepLine loads base_url session rawLine net).session = none ∧
      (stepLine loads base_url session rawLine net).events =
        [OutEvent.write (dumps (errorResponse ((kvs.lookup "id").getD Json.null)
          ("HTTP " ++ toString 404 ++ ": " ++ body)) ++ "\n"), OutEvent.flush]) ∧
    (∀ net code hdr body, code ≠ 404 →
      net (buildRequest base_url session (pyStrip rawLine)) =
        NetResult.httpError code hdr body →
      (stepLine loads base_url session rawLine net).session = session ∧
      (stepLine loads base_url session rawLine net).events =
        [OutEvent.write (dumps (errorResponse ((kvs.lookup "id").getD Json.null)
          ("HTTP " ++ toString code ++ ": " ++ body)) ++ "\n"), OutEvent.flush]) ∧
    (∀ net reason,
      net (buildRequest base_url session (pyStrip rawLine)) =
        NetResult.urlError reason →
      (stepLine loads base_url session rawLine net).session = session ∧
      (stepLine loads base_url session rawLine net).events =
        [OutEvent.write (dumps (errorResponse ((kvs.lookup "id").getD Json.null)
          ("Connection error: " ++ reason)) ++ "\n"), OutEvent.flush]) := by
  refine ⟨?_, ?_, ?_⟩
  · intro net hdr body h3
    simp only [stepLine, if_neg h1, h2]
    rw [h3]
    simp [handleResponse, msgGetId]
  · intro net code hdr body hc h3
    simp only [stepLine, if_neg h1, h2]
    rw [h3]
    simp [handleResponse, msgGetId, hc]
  · intro net reason h3
    simp only [stepLine, if_neg h1, h2]
    rw [h3]
    simp [handleResponse, msgGetId]

/-- C3: every outbound request is a POST to the fixed endpoint whose body is the
stripped input line, carrying the content-type declaration and the accept
declaration covering both the plain and the streaming format, and it carries the
session header with token `s` if and only if `s` is the currently live (non-empty)
token; after a response that issued session indicator `S` the next outbound request
includes `S`; after a 404 response the tracker is cleared so the next outbound
request omits the session header, and from the cleared state the tracker stays
`none` until a success response issues a new non-empty indicator. -/
theorem C3_request_construction (base_url : String) :
    (∀ (session_id : Option String) (line : String),
      (buildRequest base_url session_id line).method = "POST" ∧
      (buildRequest base_url session_id line).url = base_url ∧
      (buildRequest base_url session_id line).body = line ∧
      ("Content-Type", "application/json") ∈
        (buildRequest base_url session_id line).headers ∧
      ("Accept", "application/json, text/event-stream") ∈
        (buildRequest base_url session_id line).headers) ∧
    (∀ (session_id : Option String) (line s : String),
      ("Mcp-Session-Id", s) ∈ (buildRequest base_url session_id line).headers ↔
        (session_id = some s ∧ s ≠ "")) ∧
    (∀ (loads : String → Option Json) (session : Option String)
       (rawLine : String) (msg : Json) (net : Request → NetResult)
       (status : Nat) (body S nextLine : String),
      pyStrip rawLine ≠ "" → loads (pyStrip rawLine) = some msg → S ≠ "" →
      net (buildRequest base_url session (pyStrip rawLine)) =
        NetResult.success status (some S) body →
      ("Mcp-Session-Id", S) ∈
        (buildRequest base_url
          (stepLine loads base_url session rawLine net).session nextLine).headers) ∧
    (∀ (loads : String → Option Json) (session : Option String)
       (rawLine : String) (msg : Json) (net : Request → NetResult)
       (hdr : Option String) (body nextLine : String),
      pyStrip rawLine ≠ "" → loads (pyStrip rawLine) = some msg →
      net (buildRequest base_url session (pyStrip rawLine)) =
        NetResult.httpError 404 hdr body →
      ∀ s, ("Mcp-Session-Id", s) ∉
        (buildRequest base_url
          (stepLine loads base_url session rawLine net).session nextLine).headers) ∧
    (∀ (loads : String → Option Json) (rawLine : String)
       (net : Request → NetResult),
      (∀ (status : Nat) (S body : String),
        net (buildRequest base_url none (pyStrip rawLine)) =
          NetResult.success status (some S) body → S = "") →
      (stepLine loads base_url none rawLine net).session = none) := by
  have hmem : ∀ (session_id : Option String) (line s : String),
      ("Mcp-Session-Id", s) ∈ (buildRequest base_url session_id line).headers ↔
        (session_id = some s ∧ s ≠ "") := by
    intro session_id line s
    cases session_id with
    | none => simp [buildRequest, buildHeaders, baseHeaders]
    | some t =>
      by_cases ht : t = ""
      · subst ht
        simp [buildRequest, buildHeaders, baseHeaders]
        exact fun h => h.symm
      · simp only [buildRequest, buildHeaders, if_neg ht, baseHeaders]
        simp [ht]
        constructor
        · intro h
          subst h
          exact ⟨rfl, ht⟩
        · intro h
          exact h.1.symm
  refine ⟨?_, hmem, ?_, ?_, ?_⟩
  · intro session_id line
    refine ⟨rfl, rfl, rfl, ?_, ?_⟩ <;>
      cases session_id with
      | none => simp [buildRequest, buildHeaders, baseHeaders]
      | some t =>
        by_cases ht : t = "" <;>
          simp [buildRequest, buildHeaders, baseHeaders, ht]
  · intro loads session rawLine msg net status body S nextLine h1 h2 hS h3
    have hsess : (stepLine loads base_url session rawLine net).session = some S := by
      simp only [stepLine, if_neg h1, h2]
      rw [h3]
      simp only [handleResponse, pyTruthy, hS, bne_iff_ne, ne_eq, not_false_eq_true, if_true]
      split <;> rfl
    rw [hsess, hmem]
    exact ⟨rfl, hS⟩
  · intro loads session rawLine msg net hdr body nextLine h1 h2 h3 s
    have hsess : (stepLine loads base_url session rawLine net).session = none := by
      simp only [stepLine, if_neg h1, h2]
      rw [h3]
      cases hmid : msgGetId msg <;> simp [handleResponse, hmid]
    rw [hsess, hmem]
    simp
  · intro loads rawLine net hnew
    by_cases he : pyStrip rawLine = ""
    · simp [stepLine, he]
    · simp only [stepLine, if_neg he]
      cases hl : loads (pyStrip rawLine) with
      | none => rfl
      | some msg =>
        cases hr : net (buildRequest base_url none (pyStrip rawLine)) with
        | success status hdr body =>
          cases hdr with
          | none =>
            simp only [handleResponse, pyTruthy, if_false]
            split <;> rfl
          | some S =>
            have hS : S = "" := hnew status S body hr
            subst hS
            simp only [handleResponse, pyTruthy, bne_self_eq_false, if_false]
            split <;> rfl
        | httpError code hdr body =>
          cases hmid : msgGetId msg <;>
            by_cases hc : code = 404 <;>
              simp [handleResponse, hmid, hc]
        | urlError reason =>
          cases hmid : msgGetId msg <;> simp [handleResponse, hmid]
        | otherExc d => simp [handleResponse]

/-- C4 counterexample: a 500 response carrying session indicator `"S1"` does not
update the session tracker — the `HTTPError` handler never reads the response
headers, so the tracker stays `none` instead of becoming `some "S1"`, refuting the
claim that every response carrying a session indicator updates the tracker
regardless of its HTTP status. -/
theorem C4_counterexample :
    (stepLine loads0 url0 none line0
      (fun _ => NetResult.httpError 500 (some "S1") "oops")).session = none ∧
    (stepLine loads0 url0 none line0
      (fun _ => NetResult.httpError 500 (some "S1") "oops")).session ≠ some "S1" := by
  refine ⟨rfl, ?_⟩
  intro h
  rw [show (stepLine loads0 url0 none line0
      (fun _ => NetResult.httpError 500 (some "S1") "oops")).session = none from rfl] at h
  cases h

/-- C4 amended: only responses delivered on the success path of `urlopen`
(2xx statuses, including 202) that carry a non-empty session indicator update the
tracker to that value, covering both first issuance and renewal; responses surfaced
as HTTP errors never update the tracker from their header — a non-404 error status
leaves it unchanged and a 404 clears it. -/
theorem C4_amended_session_update
    (loads : String → Option Json) (base_url : String) (session : Option String)
    (rawLine : String) (msg : Json)
    (h1 : pyStrip rawLine ≠ "")
    (h2 : loads (pyStrip rawLine) = some msg) :
    (∀ (net : Request → NetResult) (status : Nat) (body S : String), S ≠ "" →
      net (buildRequest base_url session (pyStrip rawLine)) =
        NetResult.success status (some S) body →
      (stepLine loads base_url session rawLine net).session = some S) ∧
    (∀ (net : Request → NetResult) (code : Nat) (hdr : Option String)
       (body : String), code ≠ 404 →
      net (buildRequest base_url session (pyStrip rawLine)) =
        NetResult.httpError code hdr body →
      (stepLine loads base_url session rawLine net).session = session) ∧
    (∀ (net : Request → NetResult) (hdr : Option String) (body : String),
      net (buildRequest base_url session (pyStrip rawLine)) =
        NetResult.httpError 404 hdr body →
      (stepLine loads base_url session rawLine net).session = none) := by
  refine ⟨?_, ?_, ?_⟩
  · intro net status body S hS h3
    simp only [stepLine, if_neg h1, h2]
    rw [h3]
    simp only [handleResponse, pyTruthy, hS, bne_iff_ne, ne_eq, not_false_eq_true, if_true]
    split <;> rfl
  · intro net code hdr body hc h3
    simp only [stepLine, if_neg h1, h2]
    rw [h3]
    cases hmid : msgGetId msg <;> simp [handleResponse, hmid, hc]
  · intro net hdr body h3
    simp only [stepLine, if_neg h1, h2]
    rw [h3]
    cases hmid : msgGetId msg <;> simp [handleResponse, hmid]

/-- C5: for every parsed object envelope whose forwarding fails at the connection
level, exactly one output line is written, followed by a flush: the serialised
error envelope whose `id` equals the original envelope's `id` (JSON null when
absent), whose error code is the fixed generic transport-error code -32000, and
whose message embeds the connection-failure reason. -/
theorem C5_connection_error_envelope
    (loads : String → Option Json) (base_url : String) (session : Option String)
    (rawLine : String) (kvs : List (String × Json)) (net : Request → NetResult)
    (reason : String)
    (h1 : pyStrip rawLine ≠ "")
    (h2 : loads (pyStrip rawLine) = some (Json.obj kvs))
    (h3 : net (buildRequest base_url session (pyStrip rawLine)) =
      NetResult.urlError reason) :
    (stepLine loads base_url session rawLine net).events =
      [OutEvent.write (dumps (errorResponse ((kvs.lookup "id").getD Json.null)
        ("Connection error: " ++ reason)) ++ "\n"), OutEvent.flush] ∧
    getField (errorResponse ((kvs.lookup "id").getD Json.null)
        ("Connection error: " ++ reason)) "id" =
      some ((kvs.lookup "id").getD Json.null) ∧
    (getField (errorResponse ((kvs.lookup "id").getD Json.null)
        ("Connection error: " ++ reason)) "error").bind (fun e => getField e "code") =
      some (Json.num (-32000)) ∧
    (getField (errorResponse ((kvs.lookup "id").getD Json.null)
        ("Connection error: " ++ reason)) "error").bind (fun e => getField e "message") =
      some (Json.str ("Connection error: " ++ reason)) := by
  refine ⟨?_, ?_, ?_, ?_⟩
  · simp only [stepLine, if_neg h1, h2]
    rw [h3]
    simp [handleResponse, msgGetId]
  · simp [errorResponse, getField, List.lookup]
  · simp [errorResponse, getField, List.lookup]
  · simp [errorResponse, getField, List.lookup]

/-- C6: when the remote answers 202 (accepted, no content), zero output lines are
produced for that envelope, the iteration does not crash, and processing continues
with the next input line. -/
theorem C6_accepted_no_output
    (loads : String → Option Json) (base_url : String) (session : Option String)
    (rawLine : String) (msg : Json) (rest : List String)
    (net : Nat → Request → NetResult) (hdr : Option String) (body : String)
    (h1 : pyStrip rawLine ≠ "")
    (h2 : loads (pyStrip rawLine) = some msg)
    (h3 : net 0 (buildRequest base_url session (pyStrip rawLine)) =
      NetResult.success 202 hdr body) :
    (stepLine loads base_url session rawLine (net 0)).events = [] ∧
    (stepLine loads base_url session rawLine (net 0)).crashed = false ∧
    runLoop loads base_url session (rawLine :: rest) net =
      runLoop loads base_url (stepLine loads base_url session rawLine (net 0)).session
        rest (fun n => net (n + 1)) := by
  have hstep : stepLine loads base_url session rawLine (net 0) =
      ⟨some (buildRequest base_url session (pyStrip rawLine)),
       if pyTruthy hdr then hdr else session, [], false⟩ := by
    simp only [stepLine, if_neg h1, h2]
    rw [h3]
    simp [handleResponse]
  refine ⟨by rw [hstep], by rw [hstep], ?_⟩
  simp [runLoop, hstep]

/-- C7: an input line that is empty, whitespace-only, or fails JSON parsing
produces zero output lines, sends no network request, does not terminate the
process, and processing continues with the next line with the session unchanged. -/
theorem C7_malformed_skipped
    (loads : String → Option Json) (base_url : String) (session : Option String)
    (rawLine : String) (rest : List String) (net : Nat → Request → NetResult)
    (h : pyStrip rawLine = "" ∨ loads (pyStrip rawLine) = none) :
    stepLine loads base_url session rawLine (net 0) = ⟨none, session, [], false⟩ ∧
    runLoop loads base_url session (rawLine :: rest) net =
      runLoop loads base_url session rest (fun n => net (n + 1)) := by
  have hstep : stepLine loads base_url session rawLine (net 0) = ⟨none, session, [], false⟩ := by
    rcases h with h | h
    · simp [stepLine, h]
    · by_cases he : pyStrip rawLine = ""
      · simp [stepLine, he]
      · simp only [stepLine, if_neg he, h]
  refine ⟨hstep, ?_⟩
  simp [runLoop, hstep]

/-- C8 counterexample: for a valid parsed envelope whose iteration fails with an
unclassified exception (the bare `except Exception` branch, realisable e.g. by a
response body that is not valid UTF-8), no reply at all is written — the caller's
pending request is left without any reply while the loop continues — refuting the
claim that every failure after a valid envelope results in a reply. -/
theorem C8_counterexample :
    (stepLine loads0 url0 none line0
      (fun _ => NetResult.otherExc "unexpected")).events = [] ∧
    (stepLine loads0 url0 none line0
      (fun _ => NetResult.otherExc "unexpected")).crashed = false :=
  ⟨rfl, rfl⟩

/-- C8 amended: after a valid object envelope was obtained, a failure surfaced as
an HTTP error status or as a connection-level failure always results in exactly one
reply line (a write followed by a flush) on the output stream; an unclassified
runtime failure, however, is logged only: no reply is written and the loop
continues. -/
theorem C8_amended_replies
    (loads : String → Option Json) (base_url : String) (session : Option String)
    (rawLine : String) (kvs : List (String × Json))
    (h1 : pyStrip rawLine ≠ "")
    (h2 : loads (pyStrip rawLine) = some (Json.obj kvs)) :
    (∀ (net : Request → NetResult) (code : Nat) (hdr : Option String)
       (body : String),
      net (buildRequest base_url session (pyStrip rawLine)) =
        NetResult.httpError code hdr body →
      ∃ s, (stepLine loads base_url session rawLine net).events =
        [OutEvent.write s, OutEvent.flush]) ∧
    (∀ (net : Request → NetResult) (reason : String),
      net (buildRequest base_url session (pyStrip rawLine)) =
        NetResult.urlError reason →
      ∃ s, (stepLine loads base_url session rawLine net).events =
        [OutEvent.write s, OutEvent.flush]) ∧
    (∀ (net : Request → NetResult) (d : String),
      net (buildRequest base_url session (pyStrip rawLine)) =
        NetResult.otherExc d →
      (stepLine loads base_url session rawLine net).events = [] ∧
      (stepLine loads base_url session rawLine net).crashed = false) := by
  refine ⟨?_, ?_, ?_⟩
  · intro net code hdr body h3
    have hstep : (stepLine loads base_url session rawLine net).events =
        [OutEvent.write (dumps (errorResponse ((kvs.lookup "id").getD Json.null)
          ("HTTP " ++ toString code ++ ": " ++ body)) ++ "\n"), OutEvent.flush] := by
      simp only [stepLine, if_neg h1, h2]
      rw [h3]
      simp [handleResponse, msgGetId]
    exact ⟨_, hstep⟩
  · intro net reason h3
    have hstep : (stepLine loads base_url session rawLine net).events =
        [OutEvent.write (dumps (errorResponse ((kvs.lookup "id").getD Json.null)
          ("Connection error: " ++ reason)) ++ "\n"), OutEvent.flush] := by
      simp only [stepLine, if_neg h1, h2]
      rw [h3]
      simp [handleResponse, msgGetId]
    exact ⟨_, hstep⟩
  · intro net d h3
    simp only [stepLine, if_neg h1, h2]
    rw [h3]
    simp [handleResponse]

/-- C9: with discovery selected, the resolver is a bounded poll — 50 checks at
100 ms granularity, its result depending only on the first 51 reads of the shared
result dict — that takes the first responder's address and port; when the zeroconf
mechanism is unavailable, or no responder has appeared by the end of the bound, the
process exits with a non-zero code (modelled by `none`) before ever entering the
main loop. -/
theorem C9_discovery_bounded :
    (∀ (env : DiscoveryEnv), env.zeroconfAvailable = false →
      ∀ (host : String) (port : Nat) (path : String)
        (loads : String → Option Json) (lines : List String)
        (net : Nat → Request → NetResult),
        mainRun env true host port path loads lines net = none) ∧
    (∀ (env : DiscoveryEnv), (∀ i, i ≤ 50 → env.observed i = none) →
      ∀ (host : String) (port : Nat) (path : String)
        (loads : String → Option Json) (lines : List String)
        (net : Nat → Request → NetResult),
        mainRun env true host port path loads lines net = none) ∧
    (∀ (env : DiscoveryEnv), env.zeroconfAvailable = true →
      ∀ (j : Nat) (r : String × Nat), j ≤ 50 → env.observed j = some r →
        r.1 ≠ "" → (∀ i, i < j → env.observed i = none) →
        discover_mcu env = some r) ∧
    (∀ (obs obs' : Nat → Option (String × Nat)),
      (∀ i, i ≤ 50 → obs i = obs' i) →
      pollResult obs 0 50 = pollResult obs' 0 50) := by
  refine ⟨?_, ?_, ?_, ?_⟩
  · intro env hav host port path loads lines net
    simp [mainRun, resolveEndpoint, discover_mcu, hav]
  · intro env hobs host port path loads lines net
    cases hav : env.zeroconfAvailable with
    | false => simp [mainRun, resolveEndpoint, discover_mcu, hav]
    | true =>
      have hpoll : pollResult env.observed 0 50 = none :=
        pollResult_none env.observed 50 0 (fun k hk1 hk2 => hobs k (by omega))
      simp [mainRun, resolveEndpoint, discover_mcu, hav, hpoll]
  · intro env hav j r hj hobs hr hnone
    have hpoll : pollResult env.observed 0 50 = some r :=
      pollResult_first env.observed 50 0 j r (by omega) (by omega) hobs hr
        (fun k hk1 hk2 => hnone k hk2)
    simp [discover_mcu, hav, hpoll]
  · intro obs obs' h
    exact pollResult_congr obs obs' 50 0 (fun k hk1 hk2 => h k (by omega))

/-- C10: an input line parsing to a non-object JSON value is forwarded, but when
the exchange then fails with an HTTP error status or a connection-level failure,
the `msg.get("id")` lookup in the error handler raises an `AttributeError` that no
enclosing handler catches (a sibling `except` clause does not catch exceptions
raised inside an `except` block): no mapped error is written and the process
terminates instead of continuing with the rest of the input. -/
theorem C10_non_object_crash
    (loads : String → Option Json) (base_url : String) (session : Option String)
    (rawLine : String) (msg : Json) (rest : List String)
    (net : Nat → Request → NetResult)
    (h1 : pyStrip rawLine ≠ "")
    (h2 : loads (pyStrip rawLine) = some msg)
    (h3 : ∀ kvs, msg ≠ Json.obj kvs) :
    (∀ (code : Nat) (hdr : Option String) (body : String),
      net 0 (buildRequest base_url session (pyStrip rawLine)) =
        NetResult.httpError code hdr body →
      (stepLine loads base_url session rawLine (net 0)).crashed = true ∧
      (stepLine loads base_url session rawLine (net 0)).events = [] ∧
      runLoop loads base_url session (rawLine :: rest) net = ([], true)) ∧
    (∀ (reason : String),
      net 0 (buildRequest base_url session (pyStrip rawLine)) =
        NetResult.urlError reason →
      (stepLine loads base_url session rawLine (net 0)).crashed = true ∧
      (stepLine loads base_url session rawLine (net 0)).events = [] ∧
      runLoop loads base_url session (rawLine :: rest) net = ([], true)) := by
  have hmid : msgGetId msg = none := msgGetId_of_not_obj msg h3
  refine ⟨?_, ?_⟩
  · intro code hdr body hnet
    have hstep : stepLine loads base_url session rawLine (net 0) =
        ⟨some (buildRequest base_url session (pyStrip rawLine)),
         if code = 404 then none else session, [], true⟩ := by
      simp only [stepLine, if_neg h1, h2]
      rw [hnet]
      simp [handleResponse, hmid]
    refine ⟨by rw [hstep], by rw [hstep], ?_⟩
    simp [runLoop, hstep]
  · intro reason hnet
    have hstep : stepLine loads base_url session rawLine (net 0) =
        ⟨some (buildRequest base_url session (pyStrip rawLine)), session, [], true⟩ := by
      simp only [stepLine, if_neg h1, h2]
      rw [hnet]
      simp [handleResponse, hmid]
    refine ⟨by rw [hstep], by rw [hstep], ?_⟩
    simp [runLoop, hstep]

/-- Witness C1 -/
theorem C1_witness :
    (stepLine loads0 url0 none line0
      (fun _ => NetResult.success 200 none "\x7b\"result\": \x7b\x7d\x7d")).events =
      [OutEvent.write ("\x7b\"result\": \x7b\x7d\x7d" ++ "\n"), OutEvent.flush] :=
  C1_success_passthrough loads0 url0 none line0 msg0
    (fun _ => NetResult.success 200 none "\x7b\"result\": \x7b\x7d\x7d")
    200 none "\x7b\"result\": \x7b\x7d\x7d" (by decide) rfl rfl (by decide)

/-- Witness C2 -/
theorem C2_witness :
    (stepLine loads0 url0 (some "abc123") line0
      (fun _ => NetResult.httpError 404 none "Not Found")).session = none :=
  ((C2_session_transitions loads0 url0 (some "abc123") line0
      [("jsonrpc", Json.str "2.0"), ("id", Json.num 1), ("method", Json.str "ping")]
      (by decide) rfl).1
    (fun _ => NetResult.httpError 404 none "Not Found") none "Not Found" rfl).1

/-- Witness C3 -/
theorem C3_witness :
    ("Mcp-Session-Id", "abc123") ∈
      (buildRequest url0
        (stepLine loads0 url0 none line0
          (fun _ => NetResult.success 200 (some "abc123") "\x7b\x7d")).session
        (pyStrip line0)).headers :=
  (C3_request_construction url0).2.2.1 loads0 none line0 msg0
    (fun _ => NetResult.success 200 (some "abc123") "\x7b\x7d")
    200 "\x7b\x7d" "abc123" (pyStrip line0) (by decide) rfl (by decide) rfl

/-- Witness C4 -/
theorem C4_witness :
    (stepLine loads0 url0 none line0
      (fun _ => NetResult.success 200 (some "abc123") "\x7b\x7d")).session = some "abc123" :=
  (C4_amended_session_update loads0 url0 none line0 msg0 (by decide) rfl).1
    (fun _ => NetResult.success 200 (some "abc123") "\x7b\x7d")
    200 "\x7b\x7d" "abc123" (by decide) rfl

/-- Witness C5 -/
theorem C5_witness :
    (stepLine loads0 url0 none line0 (fun _ => NetResult.urlError "timed out")).events =
      [OutEvent.write (dumps (errorResponse (Json.num 1) "Connection error: timed out") ++ "\n"),
       OutEvent.flush] :=
  (C5_connection_error_envelope loads0 url0 none line0
    [("jsonrpc", Json.str "2.0"), ("id", Json.num 1), ("method", Json.str "ping")]
    (fun _ => NetResult.urlError "timed out") "timed out" (by decide) rfl rfl).1

/-- Witness C6 -/
theorem C6_witness :
    (stepLine loads0 url0 none line0
      ((fun _ _ => NetResult.success 202 none "") 0)).events = [] :=
  (C6_accepted_no_output loads0 url0 none line0 msg0 []
    (fun _ _ => NetResult.success 202 none "") none "" (by decide) rfl rfl).1

/-- Witness C7 -/
theorem C7_witness :
    stepLine loads0 url0 none "   " ((fun _ _ => NetResult.otherExc "never") 0) =
      ⟨none, none, [], false⟩ :=
  (C7_malformed_skipped loads0 url0 none "   " []
    (fun _ _ => NetResult.otherExc "never") (Or.inl (by decide))).1

/-- Witness C8 -/
theorem C8_witness :
    ∃ s, (stepLine loads0 url0 none line0
      (fun _ => NetResult.httpError 500 none "ISE")).events =
      [OutEvent.write s, OutEvent.flush] :=
  (C8_amended_replies loads0 url0 none line0
    [("jsonrpc", Json.str "2.0"), ("id", Json.num 1), ("method", Json.str "ping")]
    (by decide) rfl).1
    (fun _ => NetResult.httpError 500 none "ISE") 500 none "ISE" rfl

/-- Witness C9 -/
theorem C9_witness : discover_mcu envW = some ("192.168.1.7", 8080) :=
  C9_discovery_bounded.2.2.1 envW rfl 3 ("192.168.1.7", 8080)
    (by decide) (by decide) (by decide) (by decide)

/-- Witness C10 -/
theorem C10_witness :
    runLoop loads0 url0 none [lineArr]
      (fun _ _ => NetResult.httpError 500 none "ISE") = ([], true) :=
  ((C10_non_object_crash loads0 url0 none lineArr msgArr []
    (fun _ _ => NetResult.httpError 500 none "ISE")
    (by decide) rfl (fun kvs h => Json.noConfusion h)).1 500 none "ISE" rfl).2.2
